import Mathlib

/-!
# Verification of the termux-file-manager remote-terminal core

Shallow embedding of the terminal / command-execution core of
`src/index.js` (and the duplicated terminal code in `src/unnamed/part_000`):

* the stateless exec engine (`/terminal/exec`, `/terminal/reset-session`),
  including its `cd` interception and the JS `path` functions it uses;
* the session table and its handlers (`spawn`, `list`, `input`, `signal`,
  `kill`, `stream`);
* the per-session output buffer (`push` / `pushData`) and the
  subscribe-time replay of that buffer.

Strings are modelled with Lean `String`; the character-level helpers below
mirror the JavaScript string and regex operations used by the source.
The filesystem is modelled as a finite list of existing paths with an
`isDirectory` flag (the collaborator interface `fs.existsSync` /
`fs.statSync(..).isDirectory()`).
-/

namespace TFM

/-! ## JS string primitives -/

/-- Whitespace class of JavaScript `\s` / `String.prototype.trim`
(ASCII part plus NBSP and BOM; the exotic Unicode spaces never occur in
the claims' inputs). -/
def jsIsSpaceChar (c : Char) : Bool :=
  c = ' ' || c = '\t' || c = '\n' || c = '\r' ||
  c = '\x0b' || c = '\x0c' || c = '\u00a0' || c = '\ufeff'

/-- Line terminators, the characters JavaScript `.` (without the `s` flag)
does not match. -/
def isLineTerm (c : Char) : Bool :=
  c = '\n' || c = '\r' || c = '\u2028' || c = '\u2029'

/-- Characters stripped by the source's `replace(/^["']|["']$/g, '')`. -/
def isQuoteChar (c : Char) : Bool := c = '"' || c = '\''

def trimChars (l : List Char) : List Char :=
  ((l.dropWhile jsIsSpaceChar).reverse.dropWhile jsIsSpaceChar).reverse

/-- JavaScript `String.prototype.trim`. -/
def jsTrim (s : String) : String := ⟨trimChars s.data⟩

/-- `replace(/^["']|["']$/g, '')`: remove one leading quote if present,
then one trailing quote from what remains (a single quote character is
consumed by the leading alternative only). -/
def stripQuotes (s : String) : String :=
  let l1 := match s.data with
    | c :: rest => if isQuoteChar c then rest else c :: rest
    | [] => []
  let l2 := match l1.getLast? with
    | some c => if isQuoteChar c then l1.dropLast else l1
    | none => l1
  ⟨l2⟩

/-- `a` is a prefix of `b` (used for JS `startsWith`). -/
def charsPre : List Char → List Char → Bool
  | [], _ => true
  | _ :: _, [] => false
  | a :: as, b :: bs => a = b && charsPre as bs

/-- JS `String.prototype.startsWith`. -/
def jsStarts (s p : String) : Bool := charsPre p.data s.data

/-- JS `String.prototype.slice(n)` for nonnegative `n` (character count). -/
def jsSlice (s : String) (n : Nat) : String := ⟨s.data.drop n⟩

/-! ## JS `path` (posix) -/

/-- Split a character list on `/` (JS `p.split('/')`). -/
def splitSlash : List Char → List (List Char)
  | [] => [[]]
  | c :: rest =>
      let r := splitSlash rest
      if c = '/' then [] :: r
      else match r with
        | h :: t => (c :: h) :: t
        | [] => [[c]]

/-- Segment normalization of Node's posix path normalizer: drop empty and
`.` segments; `..` pops the previous segment, vanishes at the root of an
absolute path, and is kept (stacked) at the front of a relative path. -/
def normSegs (isAbs : Bool) (segs : List (List Char)) : List (List Char) :=
  segs.foldl
    (fun acc seg =>
      if seg = [] || seg = ['.'] then acc
      else if seg = ['.', '.'] then
        match acc.getLast? with
        | some last => if last = ['.', '.'] then acc ++ [seg] else acc.dropLast
        | none => if isAbs then [] else [seg]
      else acc ++ [seg])
    []

def interSlash : List (List Char) → List Char
  | [] => []
  | [x] => x
  | x :: xs => x ++ '/' :: interSlash xs

/-- `path.isAbsolute` (posix). -/
def isAbsStr (s : String) : Bool :=
  match s.data with
  | '/' :: _ => true
  | _ => false

/-- Node `path.resolve(...parts)` for a posix platform whose process
working directory is `procCwd` (assumed absolute): the rightmost absolute
part wins, later parts are appended, and the result is normalized with no
trailing slash. -/
def jsResolve (procCwd : String) (parts : List String) : String :=
  let acc := parts.foldl
    (fun acc p => if isAbsStr p then p.data else acc ++ '/' :: p.data)
    procCwd.data
  ⟨'/' :: interSlash (normSegs true (splitSlash acc))⟩

/-- Node `path.join(a, b)` (posix), as used on `path.join(homeDir, X)`.
Empty arguments are skipped; the result is normalized.  (Node additionally
preserves a single trailing slash of `b`; that affects only the text of
the cd error message for inputs like `cd ~/x/`, never the resolved
directory, because every use here is followed by `path.resolve`.) -/
def jsJoin (a b : String) : String :=
  let joined :=
    if a.data = [] then b.data
    else if b.data = [] then a.data
    else a.data ++ '/' :: b.data
  if joined = [] then "." else
  let abs := charsPre ['/'] joined
  let core := interSlash (normSegs abs (splitSlash joined))
  if abs then ⟨'/' :: core⟩
  else if core = [] then "." else ⟨core⟩

/-- The loop of Node posix `path.dirname` that finds the index of the last
`/` preceding the basename (skipping trailing slashes); `none` mirrors
Node's `end === -1`. -/
def dirEndLoop (cs : List Char) : Nat → Bool → Option Nat
  | 0, _ => none
  | i + 1, matched =>
      if cs.getD (i + 1) 'x' = '/' then
        if matched then dirEndLoop cs i true else some (i + 1)
      else dirEndLoop cs i false

/-- Node `path.dirname` (posix). -/
def jsDirname (s : String) : String :=
  let cs := s.data
  if cs = [] then "." else
  let hasRoot := charsPre ['/'] cs
  match dirEndLoop cs (cs.length - 1) true with
  | none => if hasRoot then "/" else "."
  | some e => if hasRoot && e = 1 then "//" else ⟨cs.take e⟩

/-! ## Filesystem collaborator -/

/-- Finite model of the filesystem seen through `fs.existsSync` and
`fs.statSync(p).isDirectory()`: the list of existing paths, each tagged
with whether it is a directory. -/
structure FS where
  entries : List (String × Bool)
deriving Repr, DecidableEq

def existsSync (f : FS) (p : String) : Bool :=
  (f.entries.find? (fun e => e.1 = p)).isSome

def isDirectory (f : FS) (p : String) : Bool :=
  ((f.entries.find? (fun e => e.1 = p)).map (fun e => e.2)).getD false

/-- The source's combined check `fs.existsSync(p) && fs.statSync(p).isDirectory()`. -/
def existsDir (f : FS) (p : String) : Bool :=
  existsSync f p && isDirectory f p

/-! ## Stateless exec engine (`/terminal/exec`) -/

/-- One entry of `_termSessions`: `{ cwd }` plus the optional `prevCwd`
field set by a successful `cd`. -/
structure ExecSession where
  cwd : String
  prevCwd : Option String := none
deriving Repr, DecidableEq

/-- The JSON reply `{ output, code, cwd }`. -/
structure ExecResult where
  output : String
  code : Nat
  cwd : String
deriving Repr, DecidableEq

/-- What the handler does after the cd-interception phase: reply directly
(no child process is spawned), or invoke `execSync` on the wrapped
command in the given directory. -/
inductive ExecAction where
  | reply (r : ExecResult)
  | runCmd (wrapped : String) (inCwd : String)
deriving Repr, DecidableEq

/-- The match `trimCmd.match(/^cd(?:\s+(.*))?$/)`: `none` when the regex
fails, `some g` with `g` the optional capture group.  The regex matches
iff the string is exactly `cd`, or `cd` + whitespace + a remainder free of
line terminators (JS `.` does not match them, and `$` without the `m`
flag anchors at the very end); with a greedy `\s+` the capture is the
remainder after the maximal whitespace run. -/
def cdBareMatch (s : String) : Option (Option String) :=
  match s.data with
  | 'c' :: 'd' :: rest =>
      if rest = [] then some none
      else if jsIsSpaceChar (rest.headD 'x') then
        let r := rest.dropWhile jsIsSpaceChar
        if r.any isLineTerm then none else some (some ⟨r⟩)
      else none
  | _ => none

/-- The match `trimCmd.match(/^cd\s+([^&;]+?)\s*(?:&&|;)\s*([\s\S]*)/)`,
returning (capture 1, capture 2).  The regex matches iff after `cd` + a
nonempty whitespace run the first `&`/`;` occurrence is a valid delimiter
(`;` or `&&`) and a nonempty `[^&;]` target precedes it (the target may
be carved out of the whitespace run when the delimiter is immediate).
Capture 1 is returned up to its whitespace padding — the source applies
`.trim()` to it immediately, which erases the difference; capture 2
starts after the `\s*` run following the delimiter. -/
def cdChainMatch (s : String) : Option (String × String) :=
  match s.data with
  | 'c' :: 'd' :: rest =>
      if rest = [] then none
      else if jsIsSpaceChar (rest.headD 'x') then
        let w := rest.takeWhile jsIsSpaceChar
        let a := rest.dropWhile jsIsSpaceChar
        let p := a.findIdx (fun c => c = '&' || c = ';')
        if p = a.length then none
        else if a.getD p 'x' = ';' then
          if 1 ≤ p || 2 ≤ w.length then
            some (⟨a.take p⟩, ⟨(a.drop (p + 1)).dropWhile jsIsSpaceChar⟩)
          else none
        else if a.getD (p + 1) 'x' = '&' then
          if 1 ≤ p || 2 ≤ w.length then
            some (⟨a.take p⟩, ⟨(a.drop (p + 2)).dropWhile jsIsSpaceChar⟩)
          else none
        else none
      else none
  | _ => none

/-- Target resolution of the bare-cd branch (source lines 1018–1024):
empty or `~` → home; `-` → `prevCwd || homeDir`; `..` → `path.dirname(cwd)`;
`~/X` → `path.join(homeDir, X)`; finally a non-absolute result is resolved
against the session's cwd. -/
def cdTargetAbs (procCwd homeDir : String) (s : ExecSession) (t0 : String) : String :=
  let t1 :=
    if t0 = "" ∨ t0 = "~" then homeDir
    else if t0 = "-" then s.prevCwd.getD homeDir
    else if t0 = ".." then jsDirname s.cwd
    else if jsStarts t0 "~/" = true then jsJoin homeDir (jsSlice t0 2)
    else t0
  if isAbsStr t1 = true then t1 else jsResolve procCwd [s.cwd, t1]

/-- Target resolution of the cd-chain branch (source lines 1046–1049);
unlike the bare branch it has no `-` and no `..` special case. -/
def cdChainTargetAbs (procCwd homeDir : String) (s : ExecSession) (t0 : String) : String :=
  let t1 :=
    if t0 = "" ∨ t0 = "~" then homeDir
    else if jsStarts t0 "~/" = true then jsJoin homeDir (jsSlice t0 2)
    else t0
  if isAbsStr t1 = true then t1 else jsResolve procCwd [s.cwd, t1]

/-- The `/terminal/exec` handler (source lines 981–1085) for one request:
given the filesystem, the server process's working directory (used by
`path.resolve`), the home directory, the session looked up under the
request's token (`none` when absent — then lazily initialized), the
command string and the optional `cwd` override.  Returns the session as
stored back into `_termSessions` and the action taken. -/
def execStep (f : FS) (procCwd homeDir : String) (sess0 : Option ExecSession)
    (cmd : String) (reqCwd : Option String) : ExecSession × ExecAction :=
  let s1 := sess0.getD ⟨homeDir, none⟩
  let s2 :=
    match reqCwd with
    | some c =>
        if c = "" then s1
        else
          let r := jsResolve procCwd [c]
          if existsDir f r = true then { s1 with cwd := r } else s1
    | none => s1
  let s3 :=
    if s2.cwd = "" ∨ existsSync f s2.cwd = false then { s2 with cwd := homeDir } else s2
  if jsTrim cmd = "" then (s3, .reply ⟨"", 0, s3.cwd⟩)
  else
    let trimCmd := jsTrim cmd
    match cdBareMatch trimCmd with
    | some g =>
        let t0 := stripQuotes (jsTrim (g.getD ""))
        let target := cdTargetAbs procCwd homeDir s3 t0
        let resolved := jsResolve procCwd [target]
        if existsDir f resolved = true then
          ({ cwd := resolved, prevCwd := some s3.cwd }, .reply ⟨"", 0, resolved⟩)
        else
          (s3, .reply ⟨"-bash: cd: " ++ target ++ ": No such file or directory\n", 1, s3.cwd⟩)
    | none =>
        match cdChainMatch trimCmd with
        | some (t, rest) =>
            let t0 := stripQuotes (jsTrim t)
            let target := cdChainTargetAbs procCwd homeDir s3 t0
            let resolved := jsResolve procCwd [target]
            let s4 :=
              if existsDir f resolved = true then
                { cwd := resolved, prevCwd := some s3.cwd }
              else s3
            (s4, .runCmd ("cd \"" ++ s4.cwd ++ "\" && " ++ rest) s4.cwd)
        | none => (s3, .runCmd ("cd \"" ++ s3.cwd ++ "\" && " ++ cmd) s3.cwd)

/-- The `sessionId` table of the exec engine: `_termSessions`. -/
abbrev ExecTable := List (String × ExecSession)

/-- `String(req.body.sessionId || 'default')` / `req.body.sessionId || 'default'`. -/
def tokenOf (tokReq : Option String) : String :=
  match tokReq with
  | some s => if s = "" then "default" else s
  | none => "default"

/-! ## Wire responses -/

/-- Shapes of the JSON bodies the terminal handlers send. -/
inductive Resp where
  | okJson
  | okSignal (signal : String)
  | spawnedOk (id : String)
  | jsonError (msg : String)
  | httpError (status : Nat) (msg : String)
deriving Repr, DecidableEq

/-- The `/terminal/reset-session` handler (source lines 1088–1092):
`delete _termSessions[sessionId]`, reply `{ok:true}`. -/
def resetHandler (m : ExecTable) (tokReq : Option String) : ExecTable × Resp :=
  (m.filter (fun e => !(e.1 = tokenOf tokReq : Bool)), Resp.okJson)

/-! ## Process supervisor (Session) and its table -/

/-- One `term` record of `_terminals` (the fields the claims are about;
the `proc` handle is represented by the event functions below). -/
structure Term where
  id : String
  buffer : List String
  cwd : String
  alive : Bool
deriving Repr, DecidableEq

/-- `_terminals`: id → term, in insertion order (ids are the decimal
strings of an increasing counter, so JS object iteration order equals
insertion order). -/
abbrev Table := List (String × Term)

/-- `_terminals[id]` lookup. -/
def findTerm (tbl : Table) (id : String) : Option Term :=
  (tbl.find? (fun e => e.1 = id)).map (fun e => e.2)

/-- The `push` closure of `_createTerminal` (source lines 877–888;
`pushData` in `src/unnamed/part_000` lines 266–275): append the chunk,
then `if (buffer.length > 5000) buffer = buffer.slice(-3000)`. -/
def pushChunk (buf : List String) (text : String) : List String :=
  let b := buf ++ [text]
  if 5000 < b.length then b.drop (b.length - 3000) else b

/-- The `proc.on('exit')` handler's `term.buffer.push(msg)` (source line
915; `part_000` line 283): a raw append with no bound check. -/
def exitAppend (buf : List String) (msg : String) : List String := buf ++ [msg]

/-- The buffer produced by a sequence of stdout/stderr chunks, each
delivered through `push`. -/
def buildBuffer (chunks : List String) : List String :=
  chunks.foldl pushChunk []

/-- SSE events as seen by one subscriber (the JSON `type` discriminator
with its `data`). -/
inductive TEvent where
  | history (data : String)
  | output (data : String)
  | exitNote
deriving Repr, DecidableEq

/-- The replay part of the `/terminal/stream` handler (source lines
1133–1141): one `history` event carrying `buffer.join('')` — only when
the buffer is nonempty — then an `exit` event if the session is dead. -/
def subscribeEvents (buf : List String) (alive : Bool) : List TEvent :=
  (if 0 < buf.length then [TEvent.history (String.join buf)] else [])
    ++ (if alive then [] else [TEvent.exitNote])

/-- Everything a subscriber receives: the subscribe-time replay followed,
for a live session, by one `output` event per later chunk (the `push`
fan-out, source lines 882–887). -/
def receivedEvents (buf : List String) (alive : Bool) (post : List String) : List TEvent :=
  subscribeEvents buf alive ++ (if alive then post.map TEvent.output else [])

/-! ## Terminal handlers -/

/-- `process.env.HOME || '/data/data/com.termux/files/home'` — JS `||`
takes the default also for an empty string. -/
def envOr (v : Option String) (dflt : String) : String :=
  match v with
  | some s => if s = "" then dflt else s
  | none => dflt

/-- The shell-candidate loop of `_createTerminal` (source lines 826–836):
first existing candidate among `$SHELL` and the fixed list, else `/bin/sh`. -/
def shellSelect (f : FS) (envShell : Option String) : String :=
  let cands : List (Option String) :=
    [envShell, some "/data/data/com.termux/files/usr/bin/bash",
     some "/data/data/com.termux/files/usr/bin/sh",
     some "/bin/bash", some "/bin/sh"]
  match cands.find? (fun o =>
      match o with
      | some t => !(t = "" : Bool) && existsSync f t
      | none => false) with
  | some (some t) => t
  | _ => "/bin/sh"

/-- `_createTerminal` (source lines 819–939).  Its first statement is
`const id = String(++_termIdCounter)`, so the module counter is
incremented before anything can throw; the returned `Nat` is the counter
after the call, `counter + 1` on every path.  `spawnOk = false` models
`child_process.spawn` (line 861) throwing synchronously; the exception
then propagates before `_terminals[id] = term`, so the table is
untouched — but the consumed id is not reused.  On success the new term
(buffer empty, alive) is registered under the consumed id. -/
def createTerminal (f : FS) (envHome envShell : Option String) (spawnOk : Bool)
    (tbl : Table) (counter : Nat) (cwdReq : String) :
    Nat × Except String (Table × Term) :=
  let id := toString (counter + 1)
  let homeDir := envOr envHome "/data/data/com.termux/files/home"
  let safeCwd := if cwdReq = "" then homeDir else cwdReq
  let _shell := shellSelect f envShell
  if spawnOk then
    let term : Term := ⟨id, [], safeCwd, true⟩
    (counter + 1, .ok (tbl ++ [(id, term)], term))
  else (counter + 1, .error "spawn failed")

/-- The `/terminal/spawn` route (source lines 942–950): on success reply
`{id, alive:true}`; on a synchronous throw reply HTTP 500 with the error
message, leaving the table as it was (the id counter, being global state
already mutated by `_createTerminal`, keeps its incremented value). -/
def spawnHandler (f : FS) (envHome envShell : Option String) (spawnOk : Bool)
    (tbl : Table) (counter : Nat) (cwdReq : String) : Table × Nat × Resp :=
  match createTerminal f envHome envShell spawnOk tbl counter cwdReq with
  | (ctr', .ok (tbl', term)) => (tbl', ctr', Resp.spawnedOk term.id)
  | (ctr', .error e) => (tbl, ctr', Resp.httpError 500 e)

/-- The `/terminal/list` handler (source lines 953–959):
`{id: t.id, alive: t.alive, cwd: t.cwd}` over `Object.values(_terminals)`. -/
def listHandler (tbl : Table) : List (String × Bool × String) :=
  tbl.map (fun e => (e.2.id, e.2.alive, e.2.cwd))

/-- The `/terminal/input` handler (source lines 962–975).  `writable`
models `proc.stdin.writable`; `writeErr` models `stdin.write` throwing. -/
def inputHandler (tbl : Table) (id _data : String) (writable : Bool)
    (writeErr : Option String) : Resp :=
  match findTerm tbl id with
  | none => Resp.httpError 404 "터미널 없음"
  | some t =>
      if !t.alive then Resp.jsonError "터미널 종료됨"
      else if !writable then Resp.jsonError "stdin이 쓸 수 없는 상태"
      else match writeErr with
        | some m => Resp.jsonError ("입력 실패: " ++ m)
        | none => Resp.okJson

/-- The two delivery attempts the `/terminal/signal` handler can make. -/
inductive SigAttempt where
  | group (sig : String)
  | direct (sig : String)
deriving Repr, DecidableEq

/-- The `/terminal/signal` handler (source lines 1095–1106).  `groupFails`
models `process.kill(-pid, sig)` throwing (then — and only then — the
direct `term.proc.kill(sig)` is attempted, in its own try/catch whose
outcome `directFails` is swallowed).  Returns the reply and the list of
delivery attempts made, in order. -/
def signalHandler (tbl : Table) (id : String) (sigReq : Option String)
    (groupFails _directFails : Bool) : Resp × List SigAttempt :=
  match findTerm tbl id with
  | none => (Resp.jsonError "터미널 없음", [])
  | some t =>
      if !t.alive then (Resp.jsonError "터미널 없음", [])
      else
        let sig := envOr sigReq "SIGINT"
        (Resp.okSignal sig,
         if groupFails then [SigAttempt.group sig, SigAttempt.direct sig]
         else [SigAttempt.group sig])

/-- The `/terminal/kill` handler (source lines 1109–1118): if the id is
present, SIGKILL attempts (fire-and-forget), `alive = false`, delete the
entry; reply `{ok:true}` in every case. -/
def killHandler (tbl : Table) (id : String) : Table × Resp :=
  match findTerm tbl id with
  | some _ => (tbl.filter (fun e => !(e.1 = id : Bool)), Resp.okJson)
  | none => (tbl, Resp.okJson)

/-- Whether `_createTerminal` returned normally (no synchronous throw). -/
def exIsOk : Except String (Table × Term) → Bool
  | .ok _ => true
  | .error _ => false

/-! ## Concrete fixtures used by witnesses and counterexamples -/

/-- A small filesystem: a home directory `/home` and a directory `/tmp`. -/
def fsDemo : FS := ⟨[("/home", true), ("/tmp", true)]⟩

/-- A one-entry session table, keyed by the term's own id, as
`_createTerminal` produces it. -/
def tblDemo : Table := [("1", ⟨"1", ["hello"], "/home", true⟩)]

/-! ## Helper lemmas: the output buffer -/

lemma pushChunk_length (b : List String) (t : String) :
    (pushChunk b t).length = if 5000 < b.length + 1 then 3000 else b.length + 1 := by
  unfold pushChunk
  by_cases h : 5000 < (b ++ [t]).length
  · rw [if_pos h, List.length_drop]
    simp only [List.length_append, List.length_singleton] at h ⊢
    rw [if_pos h]
    omega
  · rw [if_neg h]
    simp only [List.length_append, List.length_singleton] at h ⊢
    rw [if_neg h]

lemma pushChunk_ne_nil (b : List String) (t : String) : pushChunk b t ≠ [] := by
  intro he
  have h := pushChunk_length b t
  rw [he] at h
  simp only [List.length_nil] at h
  by_cases h5 : 5000 < b.length + 1
  · rw [if_pos h5] at h; omega
  · rw [if_neg h5] at h; omega

lemma foldl_pushChunk_ne_nil :
    ∀ (l : List String) (b : List String), b ≠ [] → l.foldl pushChunk b ≠ []
  | [], _, hb => hb
  | c :: t, b, _ => foldl_pushChunk_ne_nil t (pushChunk b c) (pushChunk_ne_nil b c)

lemma buildBuffer_ne_nil (pre : List String) (h : pre ≠ []) : buildBuffer pre ≠ [] := by
  cases pre with
  | nil => exact absurd rfl h
  | cons c t => exact foldl_pushChunk_ne_nil t (pushChunk [] c) (pushChunk_ne_nil [] c)

lemma pushChunk_suffix (b : List String) (t : String) :
    (pushChunk b t).IsSuffix (b ++ [t]) := by
  unfold pushChunk
  by_cases h : 5000 < (b ++ [t]).length
  · rw [if_pos h]
    exact ⟨(b ++ [t]).take ((b ++ [t]).length - 3000), List.take_append_drop _ _⟩
  · rw [if_neg h]

lemma isSuffix_append_right {l₁ l₂ l₃ : List String} (h : l₁.IsSuffix l₂) :
    (l₁ ++ l₃).IsSuffix (l₂ ++ l₃) := by
  obtain ⟨s, hs⟩ := h
  exact ⟨s, by rw [← List.append_assoc, hs]⟩

lemma foldl_pushChunk_suffix :
    ∀ (l : List String) (b : List String), (l.foldl pushChunk b).IsSuffix (b ++ l)
  | [], b => by simp
  | c :: t, b => by
      have h1 := foldl_pushChunk_suffix t (pushChunk b c)
      have h2 : ((pushChunk b c) ++ t).IsSuffix ((b ++ [c]) ++ t) :=
        isSuffix_append_right (pushChunk_suffix b c)
      have h3 := h1.trans h2
      simpa using h3

lemma buildBuffer_suffix (chunks : List String) : (buildBuffer chunks).IsSuffix chunks := by
  simpa using foldl_pushChunk_suffix chunks []

lemma foldl_pushChunk_replicate (c : String) :
    ∀ (n : Nat) (b : List String), b.length + n ≤ 5000 →
      (List.replicate n c).foldl pushChunk b = b ++ List.replicate n c := by
  intro n
  induction n with
  | zero => intro b _; simp
  | succ n ih =>
      intro b hb
      rw [List.replicate_succ, List.foldl_cons]
      have hpush : pushChunk b c = b ++ [c] := by
        unfold pushChunk
        rw [if_neg]
        simp only [List.length_append, List.length_singleton]
        omega
      rw [hpush, ih (b ++ [c]) (by simp; omega)]
      simp

/-! ## Helper lemmas: the session table -/

lemma findTerm_filter_self (tbl : Table) (id : String) :
    findTerm (tbl.filter (fun e => !(e.1 = id : Bool))) id = none := by
  unfold findTerm
  rw [List.find?_eq_none.mpr]
  · rfl
  · intro x hx
    rw [List.mem_filter] at hx
    simpa using hx.2

lemma findTerm_none_keys {tbl : Table} {id : String} (h : findTerm tbl id = none) :
    ∀ e ∈ tbl, ¬ (e.1 = id) := by
  intro e he
  unfold findTerm at h
  rcases hf : List.find? (fun e => (e.1 = id : Bool)) tbl with _ | v
  · have := List.find?_eq_none.mp hf e he
    simpa using this
  · rw [hf] at h; simp at h

lemma filter_self_idem {α : Type} (p : α → Bool) (l : List α) :
    (l.filter p).filter p = l.filter p := by
  induction l with
  | nil => rfl
  | cons a t ih => cases h : p a <;> simp [List.filter_cons, h, ih]

/-! ## Claim C4 — buffer replay on subscribe -/

/-- C4 counterexample: the claim says every subscribe first replays the
buffer as one `history` event, but for a live session whose buffer is
still empty (e.g. freshly spawned, `_createTerminal` starts with
`buffer: []`) the handler's `if (term.buffer.length > 0)` guard sends no
event at all. -/
theorem subscribe_empty_buffer_no_history :
    subscribeEvents [] true = [] ∧ (createTerminal fsDemo (some "/home") none true [] 0 "").2.toOption.map (fun r => r.2.buffer) = some [] :=
  ⟨rfl, rfl⟩

/-- C4 (amended): for a session with at least one buffered chunk, a new
subscriber's first event is one `history` event carrying the
concatenation of the buffered chunks; it is followed by the `exit` notice
if the session is already dead, and otherwise by exactly one `output`
event per post-subscribe chunk — so no `output` event repeats content
already replayed in the history. -/
theorem subscribe_replay (pre post : List String) (alive : Bool) (hpre : pre ≠ []) :
    receivedEvents (buildBuffer pre) alive post =
      TEvent.history (String.join (buildBuffer pre)) ::
        (if alive then post.map TEvent.output else [TEvent.exitNote]) := by
  have hne := buildBuffer_ne_nil pre hpre
  have hlen : 0 < (buildBuffer pre).length := List.length_pos.mpr hne
  unfold receivedEvents subscribeEvents
  rw [if_pos hlen]
  cases alive <;> simp

theorem subscribe_replay_witness :
    (["a"] : List String) ≠ [] ∧
    receivedEvents (buildBuffer ["a"]) true ["b"] =
      TEvent.history (String.join (buildBuffer ["a"])) ::
        (if true then (["b"] : List String).map TEvent.output else [TEvent.exitNote]) :=
  ⟨by decide, subscribe_replay ["a"] ["b"] true (by decide)⟩

/-! ## Claim C5 — buffer bound and burst-drop truncation -/

/-- C5 counterexample: the claim's blanket bound "at most 5000 elements"
fails, because the `proc.on('exit')` handler appends its notice with a
raw `buffer.push` and no truncation: a buffer that has legitimately grown
to 5000 chunks reaches length 5001 when the process exits. -/
theorem buffer_exit_append_exceeds_bound :
    (exitAppend (buildBuffer (List.replicate 5000 "x")) "[exit]").length = 5001 ∧
    5000 < (exitAppend (buildBuffer (List.replicate 5000 "x")) "[exit]").length := by
  have h : buildBuffer (List.replicate 5000 "x") = List.replicate 5000 "x" := by
    have h0 := foldl_pushChunk_replicate "x" 5000 ([] : List String)
      (by simp only [List.length_nil]; omega)
    unfold buildBuffer
    rw [h0, List.nil_append]
  constructor
  · unfold exitAppend
    rw [h, List.length_append, List.length_replicate, List.length_singleton]
  · unfold exitAppend
    rw [h, List.length_append, List.length_replicate, List.length_singleton]
    omega

/-- C5 (amended): chunks appended through the output path (`push` /
`pushData`) keep the buffer at no more than 5000 elements, truncate in
one step to the most recent 3000 exactly when the append would exceed
5000, and the retained buffer is always a contiguous, order-preserving
suffix of the full unbounded chunk sequence.  (The exit/error notice is
appended without the bound check — see the counterexample — so the bound
holds for the output path only.) -/
theorem buffer_bound_push (b : List String) (t : String) (h : b.length ≤ 5000) :
    (pushChunk b t).length ≤ 5000 ∧
    (pushChunk b t).IsSuffix (b ++ [t]) ∧
    (5000 < b.length + 1 → (pushChunk b t).length = 3000) ∧
    ∀ chunks : List String, (buildBuffer chunks).IsSuffix chunks := by
  refine ⟨?_, pushChunk_suffix b t, ?_, buildBuffer_suffix⟩
  · rw [pushChunk_length]
    by_cases h5 : 5000 < b.length + 1
    · rw [if_pos h5]; omega
    · rw [if_neg h5]; omega
  · intro h5
    rw [pushChunk_length, if_pos h5]

theorem buffer_bound_push_witness :
    (List.replicate 5000 "x").length ≤ 5000 ∧
    (pushChunk (List.replicate 5000 "x") "y").length ≤ 5000 ∧
    (pushChunk (List.replicate 5000 "x") "y").length = 3000 :=
  ⟨by rw [List.length_replicate],
   (buffer_bound_push (List.replicate 5000 "x") "y"
     (by rw [List.length_replicate])).1,
   (buffer_bound_push (List.replicate 5000 "x") "y"
     (by rw [List.length_replicate])).2.2.1
     (by rw [List.length_replicate]; omega)⟩

/-! ## Claim C6 — kill makes write/signal report errors and removes from list -/

/-- C6: after `kill` on an id, `input` reports the not-found error (HTTP
404, a reported error, not an exception), `signal` reports its not-found
error, and the id no longer appears in `list()`.  The hypothesis states
the table invariant that every entry is keyed by its term's own id, which
is how `_createTerminal` registers terms. -/
theorem kill_then_input_signal_list (tbl : Table) (id data : String) (w : Bool)
    (we : Option String) (sr : Option String) (gf df : Bool)
    (hinv : tbl.all (fun e => (e.2.id = e.1 : Bool)) = true) :
    (killHandler tbl id).2 = Resp.okJson ∧
    inputHandler (killHandler tbl id).1 id data w we = Resp.httpError 404 "터미널 없음" ∧
    (signalHandler (killHandler tbl id).1 id sr gf df).1 = Resp.jsonError "터미널 없음" ∧
    (listHandler (killHandler tbl id).1).all (fun r => !(r.1 = id : Bool)) = true := by
  have hkeys : ∀ e ∈ tbl, e.2.id = e.1 := by
    intro e he
    have := List.all_eq_true.mp hinv e he
    simpa using this
  rcases hcase : findTerm tbl id with _ | t
  · have hkill : killHandler tbl id = (tbl, Resp.okJson) := by
      unfold killHandler; rw [hcase]
    refine ⟨by rw [hkill], ?_, ?_, ?_⟩
    · rw [hkill]; unfold inputHandler; rw [hcase]
    · rw [hkill]; unfold signalHandler; rw [hcase]
    · rw [hkill]
      rw [List.all_eq_true]
      intro r hr
      unfold listHandler at hr
      rw [List.mem_map] at hr
      obtain ⟨e, he, rfl⟩ := hr
      have h1 := findTerm_none_keys hcase e he
      have h2 := hkeys e he
      simp only [Bool.not_eq_true']
      rw [h2]
      simpa using h1
  · have hkill : killHandler tbl id =
        (tbl.filter (fun e => !(e.1 = id : Bool)), Resp.okJson) := by
      unfold killHandler; rw [hcase]
    have hgone := findTerm_filter_self tbl id
    refine ⟨by rw [hkill], ?_, ?_, ?_⟩
    · rw [hkill]; unfold inputHandler; rw [hgone]
    · rw [hkill]; unfold signalHandler; rw [hgone]
    · rw [hkill]
      rw [List.all_eq_true]
      intro r hr
      unfold listHandler at hr
      rw [List.mem_map] at hr
      obtain ⟨e, he, rfl⟩ := hr
      rw [List.mem_filter] at he
      have h2 := hkeys e he.1
      have h3 : ¬ (e.1 = id) := by simpa using he.2
      simp only [Bool.not_eq_true']
      rw [h2]
      simpa using h3

theorem kill_then_input_signal_list_witness :
    tblDemo.all (fun e => (e.2.id = e.1 : Bool)) = true ∧
    (killHandler tblDemo "1").2 = Resp.okJson ∧
    inputHandler (killHandler tblDemo "1").1 "1" "ls\n" true none =
      Resp.httpError 404 "터미널 없음" ∧
    (signalHandler (killHandler tblDemo "1").1 "1" none false false).1 =
      Resp.jsonError "터미널 없음" ∧
    (listHandler (killHandler tblDemo "1").1).all (fun r => !(r.1 = "1" : Bool)) = true :=
  ⟨by decide,
   (kill_then_input_signal_list tblDemo "1" "ls\n" true none none false false (by decide)).1,
   (kill_then_input_signal_list tblDemo "1" "ls\n" true none none false false (by decide)).2.1,
   (kill_then_input_signal_list tblDemo "1" "ls\n" true none none false false (by decide)).2.2.1,
   (kill_then_input_signal_list tblDemo "1" "ls\n" true none none false false (by decide)).2.2.2⟩

/-! ## Claim C7 — idempotence of kill and reset-session -/

/-- C7: `kill` replies `{ok:true}` on the first call, on a repeated call,
and on an unknown id (where it is a state no-op), with the table after
the second kill equal to the table after the first; `reset-session`
replies `{ok:true}` both times and the state after the second call equals
the state after the first. -/
theorem kill_reset_idempotent (tbl : Table) (id : String) (m : ExecTable)
    (tokReq : Option String) :
    (killHandler tbl id).2 = Resp.okJson ∧
    (killHandler (killHandler tbl id).1 id).2 = Resp.okJson ∧
    (killHandler (killHandler tbl id).1 id).1 = (killHandler tbl id).1 ∧
    (findTerm tbl id = none → (killHandler tbl id).1 = tbl) ∧
    (resetHandler m tokReq).2 = Resp.okJson ∧
    (resetHandler (resetHandler m tokReq).1 tokReq).2 = Resp.okJson ∧
    (resetHandler (resetHandler m tokReq).1 tokReq).1 = (resetHandler m tokReq).1 := by
  refine ⟨?_, ?_, ?_, ?_, rfl, rfl, ?_⟩
  · unfold killHandler; rcases findTerm tbl id <;> rfl
  · rcases hcase : findTerm tbl id with _ | t
    · have h1 : (killHandler tbl id).1 = tbl := by unfold killHandler; rw [hcase]
      rw [h1]; unfold killHandler; rw [hcase]
    · have h1 : (killHandler tbl id).1 = tbl.filter (fun e => !(e.1 = id : Bool)) := by
        unfold killHandler; rw [hcase]
      rw [h1]; unfold killHandler; rw [findTerm_filter_self]
  · rcases hcase : findTerm tbl id with _ | t
    · have h1 : (killHandler tbl id).1 = tbl := by unfold killHandler; rw [hcase]
      rw [h1]; exact h1
    · have h1 : (killHandler tbl id).1 = tbl.filter (fun e => !(e.1 = id : Bool)) := by
        unfold killHandler; rw [hcase]
      rw [h1]; unfold killHandler; rw [findTerm_filter_self]
  · intro hnone; unfold killHandler; rw [hnone]
  · show ((resetHandler m tokReq).1.filter _, Resp.okJson).1 = _
    exact filter_self_idem _ _

theorem kill_reset_idempotent_witness :
    (killHandler tblDemo "1").2 = Resp.okJson ∧
    (killHandler (killHandler tblDemo "1").1 "1").2 = Resp.okJson ∧
    (killHandler (killHandler tblDemo "1").1 "1").1 = (killHandler tblDemo "1").1 ∧
    (killHandler tblDemo "9").1 = tblDemo ∧
    (resetHandler [("default", ⟨"/home", none⟩)] (some "default")).2 = Resp.okJson ∧
    (resetHandler (resetHandler [("default", ⟨"/home", none⟩)] (some "default")).1
        (some "default")).1 =
      (resetHandler [("default", ⟨"/home", none⟩)] (some "default")).1 :=
  ⟨(kill_reset_idempotent tblDemo "1" [("default", ⟨"/home", none⟩)] (some "default")).1,
   (kill_reset_idempotent tblDemo "1" [("default", ⟨"/home", none⟩)] (some "default")).2.1,
   (kill_reset_idempotent tblDemo "1" [("default", ⟨"/home", none⟩)] (some "default")).2.2.1,
   (kill_reset_idempotent tblDemo "9" [("default", ⟨"/home", none⟩)] (some "default")).2.2.2.1
     (by decide),
   (kill_reset_idempotent tblDemo "1" [("default", ⟨"/home", none⟩)] (some "default")).2.2.2.2.1,
   (kill_reset_idempotent tblDemo "1"
       [("default", ⟨"/home", none⟩)] (some "default")).2.2.2.2.2.2⟩

/-! ## Claim C8 — best-effort signal delivery -/

/-- C8: for a registered, alive session, `signal` attempts the process
group first and attempts the direct kill exactly when the group attempt
failed; the reply is the success shape `{ok:true, signal}` for every
combination of the two attempt outcomes (each attempt is wrapped in its
own try/catch, so neither failure reaches the caller). -/
theorem signal_best_effort (tbl : Table) (id : String) (t : Term) (sr : Option String)
    (gf df : Bool) (hf : findTerm tbl id = some t) (ha : t.alive = true) :
    (signalHandler tbl id sr gf df).1 = Resp.okSignal (envOr sr "SIGINT") ∧
    (signalHandler tbl id sr gf df).2 =
      (if gf then
        [SigAttempt.group (envOr sr "SIGINT"), SigAttempt.direct (envOr sr "SIGINT")]
       else [SigAttempt.group (envOr sr "SIGINT")]) := by
  unfold signalHandler
  rw [hf]
  simp [ha]

theorem signal_best_effort_witness :
    findTerm tblDemo "1" = some ⟨"1", ["hello"], "/home", true⟩ ∧
    (signalHandler tblDemo "1" none true true).1 = Resp.okSignal (envOr none "SIGINT") ∧
    (signalHandler tblDemo "1" none true true).2 =
      (if true then
        [SigAttempt.group (envOr none "SIGINT"), SigAttempt.direct (envOr none "SIGINT")]
       else [SigAttempt.group (envOr none "SIGINT")]) :=
  ⟨by decide,
   (signal_best_effort tblDemo "1" ⟨"1", ["hello"], "/home", true⟩ none true true
     (by decide) (by decide)).1,
   (signal_best_effort tblDemo "1" ⟨"1", ["hello"], "/home", true⟩ none true true
     (by decide) (by decide)).2⟩

/-! ## Claim C9 — spawn fails only on process creation, leaving the table untouched -/

/-- C9: `_createTerminal` throws exactly when the spawn primitive throws
(`exIsOk` mirrors the outcome), and on that synchronous failure the
route replies HTTP 500 with the error while the table is unchanged (the
throw happens before `_terminals[id] = term`).  The id counter, however,
was already incremented by `String(++_termIdCounter)` before the spawn
call, so it advances even on failure and the consumed id is skipped. -/
theorem spawn_fail_sync_no_register (f : FS) (eh es : Option String) (tbl : Table)
    (ctr : Nat) (cwdReq : String) :
    (∀ sOk : Bool, exIsOk (createTerminal f eh es sOk tbl ctr cwdReq).2 = sOk) ∧
    spawnHandler f eh es false tbl ctr cwdReq =
      (tbl, ctr + 1, Resp.httpError 500 "spawn failed") := by
  constructor
  · intro sOk
    cases sOk <;> rfl
  · rfl

theorem spawn_fail_sync_no_register_witness :
    exIsOk (createTerminal fsDemo (some "/home") none false [] 0 "").2 = false ∧
    spawnHandler fsDemo (some "/home") none false [] 0 "" =
      ([], 1, Resp.httpError 500 "spawn failed") :=
  ⟨(spawn_fail_sync_no_register fsDemo (some "/home") none [] 0 "").1 false,
   (spawn_fail_sync_no_register fsDemo (some "/home") none [] 0 "").2⟩

/-! ## Helper lemmas: the exec engine -/

lemma cdBareMatch_empty : cdBareMatch "" = none := rfl

/-- Characterization of the bare-cd branch of `execStep`, for a stored
session whose cwd is nonempty and exists (so that the fallback-to-home
step is the identity) and a request without a `cwd` override. -/
lemma execStep_bare (f : FS) (procCwd homeDir : String) (s : ExecSession)
    (cmd : String) (g : Option String)
    (hb : cdBareMatch (jsTrim cmd) = some g)
    (h1 : ¬ s.cwd = "") (h2 : existsSync f s.cwd = true) :
    (existsDir f (jsResolve procCwd
        [cdTargetAbs procCwd homeDir s (stripQuotes (jsTrim (g.getD "")))]) = true →
      execStep f procCwd homeDir (some s) cmd none =
        ({ cwd := jsResolve procCwd
              [cdTargetAbs procCwd homeDir s (stripQuotes (jsTrim (g.getD "")))],
           prevCwd := some s.cwd },
         ExecAction.reply ⟨"", 0,
           jsResolve procCwd
             [cdTargetAbs procCwd homeDir s (stripQuotes (jsTrim (g.getD "")))]⟩)) ∧
    (existsDir f (jsResolve procCwd
        [cdTargetAbs procCwd homeDir s (stripQuotes (jsTrim (g.getD "")))]) = false →
      execStep f procCwd homeDir (some s) cmd none =
        (s, ExecAction.reply
          ⟨"-bash: cd: " ++
             cdTargetAbs procCwd homeDir s (stripQuotes (jsTrim (g.getD ""))) ++
             ": No such file or directory\n", 1, s.cwd⟩)) := by
  have hne : ¬ jsTrim cmd = "" := by
    intro he
    rw [he, cdBareMatch_empty] at hb
    exact Option.noConfusion hb
  have hcond : ¬ (s.cwd = "" ∨ existsSync f s.cwd = false) := by
    rintro (h | h)
    · exact h1 h
    · rw [h2] at h
      exact Bool.noConfusion h
  constructor
  · intro hex
    simp only [execStep, Option.getD_some]
    rw [if_neg hcond, if_neg hne]
    simp only [hb]
    rw [if_pos hex]
  · intro hex
    have hex' : ¬ existsDir f (jsResolve procCwd
        [cdTargetAbs procCwd homeDir s (stripQuotes (jsTrim (g.getD "")))]) = true := by
      rw [hex]
      exact Bool.noConfusion
    simp only [execStep, Option.getD_some]
    rw [if_neg hcond, if_neg hne]
    simp only [hb]
    rw [if_neg hex']

/-! ## Claim C1 — bare cd: resolution, state update, no process -/

/-- C1: for a stored exec session (cwd nonempty and existing, no `cwd`
override in the request) and any command whose trimmed text matches the
bare-cd pattern `^cd(?:\s+(.*))?$` with capture `g`, the engine resolves
the quoted-stripped, trimmed target by `cdTargetAbs` (empty or `~` →
home, `-` → previous directory, `..` → parent of cwd, `~/X` →
home-relative, other relative → against cwd) and then: if the resolved
path is an existing directory it stores it as the new cwd with the prior
cwd recorded in `prevCwd` and replies with empty output and code 0;
otherwise it replies with the shell-style "No such file or directory"
message and code 1 leaving the session unchanged.  Either way the action
is a direct `reply` — no child process is spawned. -/
theorem exec_bare_cd (f : FS) (procCwd homeDir : String) (s : ExecSession)
    (cmd : String) (g : Option String)
    (hb : cdBareMatch (jsTrim cmd) = some g)
    (h1 : ¬ s.cwd = "") (h2 : existsSync f s.cwd = true) :
    (existsDir f (jsResolve procCwd
        [cdTargetAbs procCwd homeDir s (stripQuotes (jsTrim (g.getD "")))]) = true →
      execStep f procCwd homeDir (some s) cmd none =
        ({ cwd := jsResolve procCwd
              [cdTargetAbs procCwd homeDir s (stripQuotes (jsTrim (g.getD "")))],
           prevCwd := some s.cwd },
         ExecAction.reply ⟨"", 0,
           jsResolve procCwd
             [cdTargetAbs procCwd homeDir s (stripQuotes (jsTrim (g.getD "")))]⟩)) ∧
    (existsDir f (jsResolve procCwd
        [cdTargetAbs procCwd homeDir s (stripQuotes (jsTrim (g.getD "")))]) = false →
      execStep f procCwd homeDir (some s) cmd none =
        (s, ExecAction.reply
          ⟨"-bash: cd: " ++
             cdTargetAbs procCwd homeDir s (stripQuotes (jsTrim (g.getD ""))) ++
             ": No such file or directory\n", 1, s.cwd⟩)) :=
  execStep_bare f procCwd homeDir s cmd g hb h1 h2

theorem exec_bare_cd_witness :
    execStep fsDemo "/" "/home" (some ⟨"/home", none⟩) "cd /tmp" none =
      ({ cwd := "/tmp", prevCwd := some "/home" }, ExecAction.reply ⟨"", 0, "/tmp"⟩) :=
  (exec_bare_cd fsDemo "/" "/home" ⟨"/home", none⟩ "cd /tmp" (some "/tmp")
    rfl (by decide) rfl).1 rfl

/-! ## Claim C3 — empty command returns immediately -/

/-- C3: whenever the command trims to the empty string, the handler
replies immediately with empty output, code 0 and the session's current
cwd, and the action is a direct `reply` — no child process is spawned.
(The reply's cwd is the cwd stored back into the session, i.e. after the
lazy-init / override / fallback-to-home steps that precede the check.) -/
theorem exec_empty_command (f : FS) (procCwd homeDir : String)
    (sess0 : Option ExecSession) (reqCwd : Option String) (cmd : String)
    (h : jsTrim cmd = "") :
    (execStep f procCwd homeDir sess0 cmd reqCwd).2 =
      ExecAction.reply ⟨"", 0, (execStep f procCwd homeDir sess0 cmd reqCwd).1.cwd⟩ := by
  simp only [execStep]
  rw [if_pos h]

theorem exec_empty_command_witness :
    jsTrim "   " = "" ∧
    (execStep fsDemo "/" "/home" (some ⟨"/home", none⟩) "   " none).2 =
      ExecAction.reply
        ⟨"", 0, (execStep fsDemo "/" "/home" (some ⟨"/home", none⟩) "   " none).1.cwd⟩ :=
  ⟨rfl, exec_empty_command fsDemo "/" "/home" (some ⟨"/home", none⟩) none "   " rfl⟩

/-! ## Claim C2 — cd-chain commands are intercepted by the bare-cd branch -/

/-- C2 evidence (code bug): for the single-line command
`cd /tmp && ls` — with `/tmp` an existing directory — the bare-cd regex
`^cd(?:\s+(.*))?$` matches the whole command (JS `.` excludes only line
terminators), so the handler treats the entire text `/tmp && ls` as a cd
target, replies "No such file or directory" with code 1, leaves the
session unchanged, and never executes `ls`; the dedicated
`cd TARGET && REST` branch (source lines 1043–1058) is unreachable for
any single-line command. -/
theorem exec_cd_chain_intercepted :
    existsDir fsDemo "/tmp" = true ∧
    execStep fsDemo "/" "/home" (some ⟨"/home", none⟩) "cd /tmp && ls" none =
      (⟨"/home", none⟩,
       ExecAction.reply
         ⟨"-bash: cd: /tmp && ls: No such file or directory\n", 1, "/home"⟩) :=
  ⟨rfl, rfl⟩

/-! ## Claim C10 — `cd -` with no recorded previous directory goes home -/

/-- C10: in a session that has no recorded `prevCwd`, the bare command
`cd -` resolves its target to `prevCwd || homeDir`, i.e. the home
directory; so when home is an absolute, normalized, existing directory
the call succeeds with code 0 and the session's cwd set to home. -/
theorem exec_cd_dash_no_prev (f : FS) (procCwd homeDir : String) (s : ExecSession)
    (hprev : s.prevCwd = none) (h1 : ¬ s.cwd = "") (h2 : existsSync f s.cwd = true)
    (habs : isAbsStr homeDir = true)
    (hnorm : jsResolve procCwd [homeDir] = homeDir)
    (hdir : existsDir f homeDir = true) :
    execStep f procCwd homeDir (some s) "cd -" none =
      ({ cwd := homeDir, prevCwd := some s.cwd }, ExecAction.reply ⟨"", 0, homeDir⟩) := by
  have hb : cdBareMatch (jsTrim "cd -") = some (some "-") := rfl
  have harg : stripQuotes (jsTrim ((some "-").getD "")) = "-" := rfl
  have ht : cdTargetAbs procCwd homeDir s "-" = homeDir := by
    unfold cdTargetAbs
    rw [if_neg (show ¬(("-" : String) = "" ∨ ("-" : String) = "~") by decide)]
    rw [if_pos (show ("-" : String) = "-" from rfl)]
    rw [hprev, Option.getD_none]
    rw [if_pos habs]
  have h := execStep_bare f procCwd homeDir s "cd -" (some "-") hb h1 h2
  rw [harg, ht, hnorm] at h
  exact h.1 hdir

theorem exec_cd_dash_no_prev_witness :
    execStep fsDemo "/" "/home" (some ⟨"/tmp", none⟩) "cd -" none =
      ({ cwd := "/home", prevCwd := some "/tmp" }, ExecAction.reply ⟨"", 0, "/home"⟩) :=
  exec_cd_dash_no_prev fsDemo "/" "/home" ⟨"/tmp", none⟩ rfl (by decide) rfl rfl rfl rfl

end TFM
